import Mathlib

/-!
Shallow embedding of `cover_letter_service.py`.

The module sequences external collaborators (resume serializer, OpenAI
tokenizer, Fixpoint chat-completion client, Django ORM persistence, SendGrid
mail client, Honeybadger monitoring, Fixpoint feedback logging).  Each
collaborator call is modelled by an oracle field of a `World` record whose
outcome is an `Except PyExn` value: `.ok` for a normal return, `.error` for a
raised Python exception.  Datastore writes are threaded through an explicit
`DB` state, and observable side effects (completion invocations, monitoring
notifications, mail posts, feedback submissions) are accumulated in an
`Effects` record.  Python's `False` sentinel return of
`generate_cover_letter` is modelled as `none`, a created record as `some`.
-/

/-- A raised Python exception, identified by its message. -/
abbrev PyExn := String

/-- Result of a Python callable: `.ok` for a normal return, `.error` for a
raised exception. -/
abbrev PyResult (α : Type) := Except PyExn α

/-- `user` object reachable from a `Customer` (Django auth user). -/
structure UserAccount where
  id : Nat
  email : String
deriving Repr, DecidableEq

/-- `Customer` model: only the fields the service touches. -/
structure Customer where
  user : UserAccount
  num_cover_letters_generated : Nat
deriving Repr, DecidableEq

/-- `Resume` model: only the fields the service touches. -/
structure Resume where
  id : Nat
  customer : Customer
deriving Repr, DecidableEq

/-- `CoverLetterFeedbackChoicesEnum`: the nullable rating stored on a cover
letter. -/
inductive CoverLetterFeedbackChoicesEnum where
  | THUMBS_UP
  | THUMBS_DOWN
deriving Repr, DecidableEq

/-- `CoverLetter` model: the fields written by
`CoverLetter.objects.create` plus `rating` and `created_at` used by the
serializer and the feedback relay. -/
structure CoverLetter where
  id : Nat
  resume_id : Nat
  customer : Customer
  job_description_text : String
  generated_text : String
  fixpoint_input_log_response_name : String
  rating : Option CoverLetterFeedbackChoicesEnum
  created_at : Nat
deriving Repr, DecidableEq

/-- `ConversionEvent` analytics model. -/
structure ConversionEvent where
  event_name : String
  resume : Resume
  exp_variant_strings : List String
deriving Repr, DecidableEq

/-- The datastore visible to this module: created cover letters, created
conversion events, and the customers persisted by `customer.save()`. -/
structure DB where
  coverLetters : List CoverLetter
  conversionEvents : List ConversionEvent
  savedCustomers : List Customer
deriving Repr, DecidableEq

/-- A chat message passed to the completion client. -/
structure ChatMessage where
  role : String
  content : String
deriving Repr, DecidableEq

/-- `message` part of one completion choice. -/
structure ChatChoiceMessage where
  content : String
deriving Repr, DecidableEq

/-- One element of `response.choices`. -/
structure ChatChoice where
  message : ChatChoiceMessage
deriving Repr, DecidableEq

/-- Completion response: exposes `.choices`. -/
structure ChatResponse where
  choices : List ChatChoice
deriving Repr, DecidableEq

/-- A Fixpoint log object: exposes `["name"]`. -/
structure FixpointLog where
  name : String
deriving Repr, DecidableEq

/-- The triple returned by `fixpoint.create_chat_completion` on success. -/
structure ChatCompletionSuccess where
  response : ChatResponse
  inputLog : FixpointLog
  outputLog : FixpointLog
deriving Repr, DecidableEq

/-- `ThumbsReaction` from `fixpoint_sdk`. -/
inductive ThumbsReaction where
  | THUMBS_UP
  | THUMBS_DOWN
deriving Repr, DecidableEq

/-- The `like` message submitted to `fixpoint.record_single_user_feedback`. -/
structure FixpointLikeMessage where
  log_name : String
  thumbs_reaction : ThumbsReaction
  user_id : String
deriving Repr, DecidableEq

/-- One email recipient entry. -/
structure EmailRecipient where
  email : String
deriving Repr, DecidableEq

/-- `dynamic_template_data` of the SendGrid request. -/
structure DynamicTemplateData where
  firstName : String
  generatedCoverLetter : String
deriving Repr, DecidableEq

/-- One entry of `personalizations`; `to_` is the `to` key (a Lean
keyword). -/
structure Personalization where
  to_ : List EmailRecipient
  dynamic_template_data : DynamicTemplateData
deriving Repr, DecidableEq

/-- The `from` field of the SendGrid request. -/
structure EmailSender where
  email : String
  name : String
deriving Repr, DecidableEq

/-- The SendGrid request body built by `send_cover_letter_by_email`. -/
structure EmailRequest where
  personalizations : List Personalization
  from_ : EmailSender
  template_id : String
deriving Repr, DecidableEq

/-- A SendGrid response: exposes `.status_code`. -/
structure SendgridResponse where
  status_code : Int
deriving Repr, DecidableEq

/-- Request cookies, a string dict. -/
abbrev RequestCookies := List (String × String)

/-- Observable side effects of one call: number of
`fixpoint.create_chat_completion` invocations, Honeybadger `notify` error
messages, SendGrid `post` request bodies, and Fixpoint feedback
submissions, each in call order. -/
structure Effects where
  chatCompletionCalls : Nat
  notifies : List String
  emailPosts : List EmailRequest
  feedbackCalls : List FixpointLikeMessage
deriving Repr, DecidableEq

/-- No side effects yet. -/
def Effects.none : Effects := ⟨0, [], [], []⟩

/-- Side effects of two sequential calls. -/
def Effects.merge (a b : Effects) : Effects :=
  ⟨a.chatCompletionCalls + b.chatCompletionCalls, a.notifies ++ b.notifies,
   a.emailPosts ++ b.emailPosts, a.feedbackCalls ++ b.feedbackCalls⟩

/-- Behaviour of every external collaborator during one execution, plus the
datastore-assigned id and timestamp of a record created during it.  An
`.error` outcome models the collaborator raising an exception. -/
structure World where
  convertResume : Resume → PyResult String
  numTokensFromString : String → PyResult Nat
  createChatCompletion : List ChatMessage → String → Nat → PyResult ChatCompletionSuccess
  coverLetterCreate : PyResult Unit
  freshCoverLetterId : Nat
  now : Nat
  getContactInfoFirstName : Resume → PyResult String
  sendgridEmailSender : String
  sendgridPost : EmailRequest → PyResult SendgridResponse
  customerSave : PyResult Unit
  listAllExpVariantStrings : RequestCookies → PyResult (List String)
  recordConversionEvent : PyResult Unit
  recordSingleUserFeedback : FixpointLikeMessage → PyResult Unit

/-- MAX_TOKENS_CHAT_COMPLETION = 600. -/
def MAX_TOKENS_CHAT_COMPLETION : Nat := 600

/-- AI_CONTEXT_MESSAGE_BEGIN. -/
def AI_CONTEXT_MESSAGE_BEGIN : String :=
  "\n    You are a Job applicant. You will be provided with your resume and a\n    job description you are applying for.\n"

/-- AI_CONTEXT_MESSAGE_TASK. -/
def AI_CONTEXT_MESSAGE_TASK : String :=
  "\n    First take a moment to fully understand your career objective, \n    based on the provided resume. Then, create a cover letter strictly\n    for the provided job description highlighting all your skills, experiences,\n    projects and certifications relevant to the job. All the necessary\n    information will be provided in the next message.\n"

/-- AI_CONTEXT_MESSAGE_RETURN. -/
def AI_CONTEXT_MESSAGE_RETURN : String :=
  "\n    You should return around 5 paragraphs in about 300 words.\n"

/-- Modelled from the spec: the fixed model identifier
`openai.GPTModels.GPT4_OMNI.value` (the openai integration module is not
under src). -/
def GPT_MODEL_IN_USE : String := "gpt-4o"

/-- Modelled from the spec: `openai.get_max_token_limit`, the maximum
context window of the configured model (the openai integration module is
not under src); 128000 is the GPT-4 Omni context window. -/
def get_max_token_limit (_model : String) : Nat := 128000

/-- SENDGRID_EMAIL_TEMPLATE_ID = "abcde". -/
def SENDGRID_EMAIL_TEMPLATE_ID : String := "abcde"

/-- Modelled from the spec: `error_messages.COVER_LETTER_UNABLE_TO_GENERATE`
(the error_messages module is not under src; the exact text is unobserved,
only its identity matters). -/
def COVER_LETTER_UNABLE_TO_GENERATE : String :=
  "Unable to generate the cover letter"

/-- Modelled from the spec:
`error_messages.COVER_LETTER_UNABLE_TO_SEND_EMAIL`. -/
def COVER_LETTER_UNABLE_TO_SEND_EMAIL : String :=
  "Unable to send the cover letter by email"

/-- Modelled from the spec:
`error_messages.COVER_LETTER_UNABLE_TO_SEND_FEEDBACK_TO_FIXPOINT`. -/
def COVER_LETTER_UNABLE_TO_SEND_FEEDBACK_TO_FIXPOINT : String :=
  "Unable to send the cover letter feedback to Fixpoint"

/-- Modelled from the spec:
`ConversionEventNameEnum.COVER_LETTER_GENERATE.value` (the analytics enum
module is not under src). -/
def COVER_LETTER_GENERATE_EVENT_NAME : String := "COVER_LETTER_GENERATE"

/-- The check `num_input_tokens > MAX_INPUT_TOKENS` where
`MAX_INPUT_TOKENS = get_max_token_limit(GPT_MODEL_IN_USE) * 0.7`.  With the
128000-token limit the Python float `128000 * 0.7` is exactly `89600.0`, so
the float comparison coincides with the exact rational comparison
`10 * n > 7 * limit` used here. -/
def exceeds_max_input_tokens (num_input_tokens : Nat) : Bool :=
  10 * num_input_tokens > 7 * get_max_token_limit GPT_MODEL_IN_USE

/-- Modelled from the spec: `openai.create_user_message` (the openai
integration module is not under src) builds one user-role chat message. -/
def create_user_message (content : String) : ChatMessage :=
  ⟨"user", content⟩

/-- `str(cover_letter_data)`: the Python repr of the two-key dict.  The repr
escaping of quotes inside the payload strings is approximated by plain
concatenation; no claim depends on the exact prompt text. -/
def cover_letter_data_str (resume_text job_description_text : String) : String :=
  "\x7b'resume': '" ++ resume_text ++ "', 'job_description': '" ++
    job_description_text ++ "'\x7d"

/-- The four-message prompt built by `generate_cover_letter`. -/
def build_messages (resume_text job_description_text : String) : List ChatMessage :=
  [create_user_message AI_CONTEXT_MESSAGE_BEGIN,
   create_user_message AI_CONTEXT_MESSAGE_TASK,
   create_user_message (cover_letter_data_str resume_text job_description_text),
   create_user_message AI_CONTEXT_MESSAGE_RETURN]

/-- The record written by `CoverLetter.objects.create(...)`: id and
timestamp are datastore-assigned (taken from the world), `rating` starts
unset. -/
def new_cover_letter (w : World) (resume : Resume) (job_description_text : String)
    (generated_text : String) (input_log_name : String) : CoverLetter :=
  ⟨w.freshCoverLetterId, resume.id, resume.customer, job_description_text,
   generated_text, input_log_name, Option.none, w.now⟩

/-- Outcome of `generate_cover_letter`: its return value (`.error` when an
exception escapes; `.ok none` is Python's `False` sentinel), the datastore,
and the side effects. -/
structure GenOutcome where
  result : PyResult (Option CoverLetter)
  db : DB
  eff : Effects
deriving Repr

/-- `generate_cover_letter(resume, job_description_text)`.

Line by line: `convert_resume_to_str` and `num_tokens_from_string` run
outside any try block, so their exceptions escape; the token-budget check
returns `False` before the completion client is invoked; inside the try
block the completion call, the `choices[0]` access and the
`CoverLetter.objects.create` call are all caught by the broad `except`,
which returns `False`. -/
def generate_cover_letter (w : World) (resume : Resume)
    (job_description_text : String) (db : DB) : GenOutcome :=
  match w.convertResume resume with
  | .error e => ⟨.error e, db, Effects.none⟩
  | .ok resume_text =>
    match w.numTokensFromString (resume_text ++ job_description_text) with
    | .error e => ⟨.error e, db, Effects.none⟩
    | .ok num_input_tokens =>
      if exceeds_max_input_tokens num_input_tokens then
        ⟨.ok Option.none, db, Effects.none⟩
      else
        match w.createChatCompletion (build_messages resume_text job_description_text)
            GPT_MODEL_IN_USE MAX_TOKENS_CHAT_COMPLETION with
        | .error _ => ⟨.ok Option.none, db, ⟨1, [], [], []⟩⟩
        | .ok success =>
          match success.response.choices with
          | [] => ⟨.ok Option.none, db, ⟨1, [], [], []⟩⟩
          | choice :: _ =>
            match w.coverLetterCreate with
            | .error _ => ⟨.ok Option.none, db, ⟨1, [], [], []⟩⟩
            | .ok _ =>
              let record := new_cover_letter w resume job_description_text
                choice.message.content success.inputLog.name
              ⟨.ok (some record),
               { db with coverLetters := db.coverLetters ++ [record] },
               ⟨1, [], [], []⟩⟩

/-- `cover_letter.generated_text.replace("\n", "<br />")`: every newline
character is replaced by the string `"<br />"`.  Modelled character by
character, which coincides with Python `str.replace` for a one-character
pattern. -/
def replace_newlines (s : String) : String :=
  String.join (s.data.map (fun c => if c = '\n' then "<br />" else String.singleton c))

/-- The SendGrid request body built by `send_cover_letter_by_email` once the
first name has been extracted from the resume. -/
def email_request (w : World) (customer : Customer) (cover_letter : CoverLetter)
    (firstName : String) : EmailRequest :=
  ⟨[⟨[⟨customer.user.email⟩], ⟨firstName, replace_newlines cover_letter.generated_text⟩⟩],
   ⟨w.sendgridEmailSender, "Jobs"⟩, SENDGRID_EMAIL_TEMPLATE_ID⟩

/-- Outcome of `send_cover_letter_by_email`. -/
structure EmailOutcome where
  result : PyResult Bool
  db : DB
  eff : Effects
deriving Repr

/-- `send_cover_letter_by_email(customer, cover_letter, resume)`.

Line by line: the newline substitution and the request body are built
outside the try block (`resume.get_contact_info_first_name()` can raise and
escape); inside the try block the SendGrid post is attempted, a status code
above 299 notifies Honeybadger once and returns `False`, any other status
returns `True`, and a transport exception notifies once and returns
`False`.  The function performs no datastore write, so the datastore is
returned unchanged. -/
def send_cover_letter_by_email (w : World) (customer : Customer)
    (cover_letter : CoverLetter) (resume : Resume) (db : DB) : EmailOutcome :=
  match w.getContactInfoFirstName resume with
  | .error e => ⟨.error e, db, Effects.none⟩
  | .ok firstName =>
    let data := email_request w customer cover_letter firstName
    match w.sendgridPost data with
    | .error _ =>
      ⟨.ok false, db, ⟨0, [COVER_LETTER_UNABLE_TO_SEND_EMAIL], [data], []⟩⟩
    | .ok response =>
      if response.status_code > 299 then
        ⟨.ok false, db, ⟨0, [COVER_LETTER_UNABLE_TO_SEND_EMAIL], [data], []⟩⟩
      else
        ⟨.ok true, db, ⟨0, [], [data], []⟩⟩

/-- Modelled from the spec: the serialized view of a cover letter produced
by `CoverLetterSerializer(...).data` (the serializer module is not under
src): the fields id (stringified), job description text, generated text,
rating and created timestamp. -/
structure SerializedCoverLetter where
  id : String
  job_description_text : String
  generated_text : String
  rating : Option CoverLetterFeedbackChoicesEnum
  created_at : Nat
deriving Repr, DecidableEq

/-- Modelled from the spec: serialization of one cover letter record. -/
def serialize_cover_letter (cover_letter : CoverLetter) : SerializedCoverLetter :=
  ⟨toString cover_letter.id, cover_letter.job_description_text,
   cover_letter.generated_text, cover_letter.rating, cover_letter.created_at⟩

/-- The payload returned by `generate_cover_letter_in_background_task`:
either the structured error payload produced by
`BackgroundTaskErrorSerializer` (is_error true plus an error message) or
the serialized cover letter. -/
inductive TaskPayload where
  | errorPayload (error_message : String)
  | data (d : SerializedCoverLetter)
deriving Repr, DecidableEq

/-- Outcome of `generate_cover_letter_in_background_task`. -/
structure TaskOutcome where
  result : PyResult TaskPayload
  db : DB
  eff : Effects
deriving Repr

/-- `generate_cover_letter_in_background_task(resume, job_description_text,
customer, request_cookies)`.

Line by line: the generator is called first; `is False` selects exactly
the sentinel, which is notified to Honeybadger and converted into the
structured error payload; otherwise the customer counter is incremented and
saved, one ConversionEvent is created with the generation event name, the
resume and the experiment variants listed from the request cookies, the
email send is attempted with its return value discarded, and the serialized
record is returned.  None of the orchestrator's own statements sit inside a
try block, so exceptions from `customer.save()`, the variant listing, the
event creation or an escaping email-step exception propagate. -/
def generate_cover_letter_in_background_task (w : World) (resume : Resume)
    (job_description_text : String) (customer : Customer)
    (request_cookies : RequestCookies) (db : DB) : TaskOutcome :=
  let gen := generate_cover_letter w resume job_description_text db
  match gen.result with
  | .error e => ⟨.error e, gen.db, gen.eff⟩
  | .ok Option.none =>
    ⟨.ok (TaskPayload.errorPayload COVER_LETTER_UNABLE_TO_GENERATE), gen.db,
     Effects.merge gen.eff ⟨0, [COVER_LETTER_UNABLE_TO_GENERATE], [], []⟩⟩
  | .ok (some cover_letter) =>
    let customer2 : Customer :=
      { customer with num_cover_letters_generated :=
          customer.num_cover_letters_generated + 1 }
    match w.customerSave with
    | .error e => ⟨.error e, gen.db, gen.eff⟩
    | .ok _ =>
      let db2 := { gen.db with savedCustomers := gen.db.savedCustomers ++ [customer2] }
      match w.listAllExpVariantStrings request_cookies with
      | .error e => ⟨.error e, db2, gen.eff⟩
      | .ok exp_variant_strings =>
        match w.recordConversionEvent with
        | .error e => ⟨.error e, db2, gen.eff⟩
        | .ok _ =>
          let db3 := { db2 with conversionEvents := db2.conversionEvents ++
            [⟨COVER_LETTER_GENERATE_EVENT_NAME, resume, exp_variant_strings⟩] }
          let emailOut := send_cover_letter_by_email w customer2 cover_letter resume db3
          match emailOut.result with
          | .error e => ⟨.error e, emailOut.db, Effects.merge gen.eff emailOut.eff⟩
          | .ok _ =>
            ⟨.ok (TaskPayload.data (serialize_cover_letter cover_letter)),
             emailOut.db, Effects.merge gen.eff emailOut.eff⟩

/-- The reaction computed by `send_user_feedback_to_fixpoint`: THUMBS_UP by
default, THUMBS_DOWN exactly when the stored rating equals the THUMBS_DOWN
choice. -/
def feedback_thumbs_reaction (cover_letter : CoverLetter) : ThumbsReaction :=
  if cover_letter.rating = some CoverLetterFeedbackChoicesEnum.THUMBS_DOWN then
    ThumbsReaction.THUMBS_DOWN
  else
    ThumbsReaction.THUMBS_UP

/-- Modelled from the spec: `fixpoint.create_user_feedback_like_message`
(the fixpoint integration module is not under src) packages the reaction,
the log name and the user id into the `like` message. -/
def create_user_feedback_like_message (thumbs_reaction : ThumbsReaction)
    (input_log_response_name : String) (user_id : String) : FixpointLikeMessage :=
  ⟨input_log_response_name, thumbs_reaction, user_id⟩

/-- The `like` message built by `send_user_feedback_to_fixpoint`: the log
name is `str(...)` of the record's log-name field (identity for a string
field) and the user id is `str(cover_letter.customer.user.id)`. -/
def feedback_like_message (cover_letter : CoverLetter) : FixpointLikeMessage :=
  create_user_feedback_like_message (feedback_thumbs_reaction cover_letter)
    cover_letter.fixpoint_input_log_response_name
    (toString cover_letter.customer.user.id)

/-- Outcome of `send_user_feedback_to_fixpoint` (the function performs no
datastore write). -/
structure FeedbackOutcome where
  result : PyResult Unit
  eff : Effects
deriving Repr

/-- `send_user_feedback_to_fixpoint(cover_letter)`.

Line by line: the reaction and the like message are computed, then the
single `record_single_user_feedback` call sits inside the try block; its
exception is notified to Honeybadger once and swallowed; the function
returns None either way. -/
def send_user_feedback_to_fixpoint (w : World) (cover_letter : CoverLetter) :
    FeedbackOutcome :=
  let message := feedback_like_message cover_letter
  match w.recordSingleUserFeedback message with
  | .error _ =>
    ⟨.ok (), ⟨0, [COVER_LETTER_UNABLE_TO_SEND_FEEDBACK_TO_FIXPOINT], [], [message]⟩⟩
  | .ok _ => ⟨.ok (), ⟨0, [], [], [message]⟩⟩

/-- Sample user for concrete executions. -/
def sampleUser : UserAccount := ⟨7, "user@example.com"⟩

/-- Sample customer for concrete executions. -/
def sampleCustomer : Customer := ⟨sampleUser, 2⟩

/-- Sample resume for concrete executions. -/
def sampleResume : Resume := ⟨3, sampleCustomer⟩

/-- Sample cover letter record for concrete executions. -/
def sampleCoverLetter : CoverLetter :=
  ⟨11, 3, sampleCustomer, "jd", "Dear Hiring Manager,\nI fit.", "log-in",
   Option.none, 5⟩

/-- Empty datastore. -/
def db0 : DB := ⟨[], [], []⟩

/-- A collaborator behaviour where every call returns normally: the resume
serializer yields a fixed text, the tokenizer counts 100 tokens, the
completion client returns one choice, persistence succeeds, SendGrid
answers 202 and the variant listing yields one label. -/
def baseWorld : World :=
  { convertResume := fun _ => .ok "resume text"
    numTokensFromString := fun _ => .ok 100
    createChatCompletion := fun _ _ _ =>
      .ok ⟨⟨[⟨⟨"Dear Hiring Manager,\nI fit."⟩⟩]⟩, ⟨"log-in"⟩, ⟨"log-out"⟩⟩
    coverLetterCreate := .ok ()
    freshCoverLetterId := 11
    now := 5
    getContactInfoFirstName := fun _ => .ok "Ada"
    sendgridEmailSender := "sender@example.com"
    sendgridPost := fun _ => .ok ⟨202⟩
    customerSave := .ok ()
    listAllExpVariantStrings := fun _ => .ok ["_exp_2"]
    recordConversionEvent := .ok ()
    recordSingleUserFeedback := fun _ => .ok () }

/-- The generator touches only the cover-letter table: conversion events and
saved customers are unchanged, and it never notifies monitoring, posts
mail or submits feedback. -/
theorem generate_cover_letter_frame (w : World) (resume : Resume)
    (jd : String) (db : DB) :
    (generate_cover_letter w resume jd db).db.conversionEvents = db.conversionEvents ∧
    (generate_cover_letter w resume jd db).db.savedCustomers = db.savedCustomers ∧
    (generate_cover_letter w resume jd db).eff.notifies = [] ∧
    (generate_cover_letter w resume jd db).eff.emailPosts = [] := by
  unfold generate_cover_letter
  repeat' split
  all_goals simp [Effects.none]

/-- The email sender performs no datastore write. -/
theorem send_cover_letter_by_email_db (w : World) (customer : Customer)
    (cover_letter : CoverLetter) (resume : Resume) (db : DB) :
    (send_cover_letter_by_email w customer cover_letter resume db).db = db := by
  unfold send_cover_letter_by_email
  split
  · rfl
  · dsimp only
    split
    · rfl
    · split <;> rfl

/-- When the first-name extraction returns normally, the email sender
returns a boolean (never an escaping exception). -/
theorem send_cover_letter_by_email_ok (w : World) (customer : Customer)
    (cover_letter : CoverLetter) (resume : Resume) (db : DB) (fn : String)
    (hname : w.getContactInfoFirstName resume = .ok fn) :
    ∃ b, (send_cover_letter_by_email w customer cover_letter resume db).result = .ok b := by
  unfold send_cover_letter_by_email
  rw [hname]
  dsimp only
  rcases hp : w.sendgridPost (email_request w customer cover_letter fn) with e | resp
  · exact ⟨false, rfl⟩
  · by_cases h : resp.status_code > 299
    · exact ⟨false, by simp [h]⟩
    · exact ⟨true, by simp [h]⟩

/-- Claim C1: when the resume serialization and token count return normally
and the combined token count exceeds 70% of the model's context window,
generate_cover_letter returns the failure sentinel (False, here `none`),
leaves the datastore unchanged (zero CoverLetter records created), and
never invokes create_chat_completion. -/
theorem C1_token_budget_exceeded (w : World) (resume : Resume) (jd : String)
    (db : DB) (resume_text : String) (n : Nat)
    (hconv : w.convertResume resume = .ok resume_text)
    (htok : w.numTokensFromString (resume_text ++ jd) = .ok n)
    (hex : exceeds_max_input_tokens n = true) :
    (generate_cover_letter w resume jd db).result = .ok Option.none ∧
    (generate_cover_letter w resume jd db).db = db ∧
    (generate_cover_letter w resume jd db).eff.chatCompletionCalls = 0 := by
  simp [generate_cover_letter, hconv, htok, hex, Effects.none]

/-- Witness for C1: a concrete run with 89601 counted tokens (above the
89600-token budget) returns the sentinel, writes nothing and makes no
completion call. -/
theorem C1_token_budget_exceeded_witness :
    (generate_cover_letter { baseWorld with numTokensFromString := fun _ => .ok 89601 }
      sampleResume "jd" db0).result = .ok Option.none ∧
    (generate_cover_letter { baseWorld with numTokensFromString := fun _ => .ok 89601 }
      sampleResume "jd" db0).db = db0 ∧
    (generate_cover_letter { baseWorld with numTokensFromString := fun _ => .ok 89601 }
      sampleResume "jd" db0).eff.chatCompletionCalls = 0 :=
  C1_token_budget_exceeded _ sampleResume "jd" db0 "resume text" 89601 rfl rfl (by decide)

/-- Claim C2 counterexample: the token budget is respected and the
completion provider call succeeds (it is invoked exactly once and its
outcome is a fixed `.ok` value), yet because `CoverLetter.objects.create`
raises, the broad except returns the sentinel and zero records are
created — refuting the claim that budget-ok plus provider-call success
alone yields exactly one record. -/
theorem C2_no_record_when_create_raises :
    (generate_cover_letter { baseWorld with coverLetterCreate := .error "datastore down" }
      sampleResume "jd" db0).result = .ok Option.none ∧
    (generate_cover_letter { baseWorld with coverLetterCreate := .error "datastore down" }
      sampleResume "jd" db0).db.coverLetters = [] ∧
    (generate_cover_letter { baseWorld with coverLetterCreate := .error "datastore down" }
      sampleResume "jd" db0).eff.chatCompletionCalls = 1 :=
  ⟨rfl, rfl, rfl⟩

/-- Claim C2 (amended): when additionally the provider response contains a
first choice and the record persistence succeeds, exactly one CoverLetter
record is created and returned, with generated text equal to the first
choice's message content and the log reference equal to the input log's
name. -/
theorem C2_generation_success (w : World) (resume : Resume) (jd : String)
    (db : DB) (resume_text : String) (n : Nat)
    (success : ChatCompletionSuccess) (choice : ChatChoice) (rest : List ChatChoice)
    (hconv : w.convertResume resume = .ok resume_text)
    (htok : w.numTokensFromString (resume_text ++ jd) = .ok n)
    (hex : exceeds_max_input_tokens n = false)
    (hcall : w.createChatCompletion (build_messages resume_text jd)
      GPT_MODEL_IN_USE MAX_TOKENS_CHAT_COMPLETION = .ok success)
    (hchoices : success.response.choices = choice :: rest)
    (hcreate : w.coverLetterCreate = .ok ()) :
    ∃ record,
      (generate_cover_letter w resume jd db).result = .ok (some record) ∧
      (generate_cover_letter w resume jd db).db.coverLetters = db.coverLetters ++ [record] ∧
      record.generated_text = choice.message.content ∧
      record.fixpoint_input_log_response_name = success.inputLog.name := by
  refine ⟨new_cover_letter w resume jd choice.message.content success.inputLog.name,
    ?_, ?_, rfl, rfl⟩ <;>
    simp [generate_cover_letter, hconv, htok, hex, hcall, hchoices, hcreate]

/-- Witness for C2 (amended): a concrete successful run creates and
returns one record carrying the provider's first-choice text and the
input-log name. -/
theorem C2_generation_success_witness :
    ∃ record,
      (generate_cover_letter baseWorld sampleResume "jd" db0).result = .ok (some record) ∧
      (generate_cover_letter baseWorld sampleResume "jd" db0).db.coverLetters =
        db0.coverLetters ++ [record] ∧
      record.generated_text = "Dear Hiring Manager,\nI fit." ∧
      record.fixpoint_input_log_response_name = "log-in" :=
  C2_generation_success baseWorld sampleResume "jd" db0 "resume text" 100
    ⟨⟨[⟨⟨"Dear Hiring Manager,\nI fit."⟩⟩]⟩, ⟨"log-in"⟩, ⟨"log-out"⟩⟩
    ⟨⟨"Dear Hiring Manager,\nI fit."⟩⟩ [] rfl rfl rfl rfl rfl rfl

/-- Claim C3 counterexample: the completion call succeeds (it is made
exactly once against a constant `.ok` oracle, shown by the first conjunct
evaluating that oracle), yet because the persistence step raises, no
CoverLetterRecord exists afterwards and the sentinel is returned —
refuting "completion success implies a record exists (including when the
persistence step itself fails)". -/
theorem C3_completion_success_without_record :
    ({ baseWorld with coverLetterCreate := .error "unique constraint violated" } : World).createChatCompletion
        (build_messages "resume text" "jd") GPT_MODEL_IN_USE MAX_TOKENS_CHAT_COMPLETION =
      .ok ⟨⟨[⟨⟨"Dear Hiring Manager,\nI fit."⟩⟩]⟩, ⟨"log-in"⟩, ⟨"log-out"⟩⟩ ∧
    (generate_cover_letter { baseWorld with coverLetterCreate := .error "unique constraint violated" }
      sampleResume "jd" db0).eff.chatCompletionCalls = 1 ∧
    (generate_cover_letter { baseWorld with coverLetterCreate := .error "unique constraint violated" }
      sampleResume "jd" db0).db.coverLetters = [] ∧
    (generate_cover_letter { baseWorld with coverLetterCreate := .error "unique constraint violated" }
      sampleResume "jd" db0).result = .ok Option.none :=
  ⟨rfl, rfl, rfl, rfl⟩

/-- Claim C3 (amended): when the resume serialization and token count
return normally, a CoverLetter record is created by the execution if and
only if the token budget is not exceeded, the completion call succeeds,
its response carries a first choice, and the persistence step succeeds;
in every other case the cover-letter table is left unchanged. -/
theorem C3_record_iff_success (w : World) (resume : Resume) (jd : String)
    (db : DB) (resume_text : String) (n : Nat)
    (hconv : w.convertResume resume = .ok resume_text)
    (htok : w.numTokensFromString (resume_text ++ jd) = .ok n) :
    ((generate_cover_letter w resume jd db).db.coverLetters.length =
        db.coverLetters.length + 1 ↔
      exceeds_max_input_tokens n = false ∧
      ∃ success choice rest,
        w.createChatCompletion (build_messages resume_text jd)
          GPT_MODEL_IN_USE MAX_TOKENS_CHAT_COMPLETION = .ok success ∧
        success.response.choices = choice :: rest ∧
        w.coverLetterCreate = .ok ()) ∧
    ((generate_cover_letter w resume jd db).db.coverLetters.length ≠
        db.coverLetters.length + 1 →
      (generate_cover_letter w resume jd db).db.coverLetters = db.coverLetters) := by
  unfold generate_cover_letter
  rw [hconv]
  dsimp only
  rw [htok]
  dsimp only
  by_cases hex : exceeds_max_input_tokens n = true
  · simp [hex]
  · simp only [Bool.not_eq_true] at hex
    simp only [hex, Bool.false_eq_true, if_false]
    rcases hcall : w.createChatCompletion (build_messages resume_text jd)
        GPT_MODEL_IN_USE MAX_TOKENS_CHAT_COMPLETION with e | success
    · simp [hcall]
    · rcases hch : success.response.choices with _ | ⟨choice, rest⟩
      · simp [hcall, hch]
      · rcases hcr : w.coverLetterCreate with e | u
        · simp [hcall, hch, hcr]
        · simp [hcall, hch, hcr]

/-- Witness for C3 (amended): the iff holds on a concrete fully
successful execution, where exactly one record is appended. -/
theorem C3_record_iff_success_witness :
    ((generate_cover_letter baseWorld sampleResume "jd" db0).db.coverLetters.length =
        db0.coverLetters.length + 1 ↔
      exceeds_max_input_tokens 100 = false ∧
      ∃ success choice rest,
        baseWorld.createChatCompletion (build_messages "resume text" "jd")
          GPT_MODEL_IN_USE MAX_TOKENS_CHAT_COMPLETION = .ok success ∧
        success.response.choices = choice :: rest ∧
        baseWorld.coverLetterCreate = .ok ()) ∧
    ((generate_cover_letter baseWorld sampleResume "jd" db0).db.coverLetters.length ≠
        db0.coverLetters.length + 1 →
      (generate_cover_letter baseWorld sampleResume "jd" db0).db.coverLetters =
        db0.coverLetters) :=
  C3_record_iff_success baseWorld sampleResume "jd" db0 "resume text" 100 rfl rfl

/-- When the resume serialization and token count return normally, every
exception inside the generator's try block is caught: the generator
returns a value. -/
theorem generate_cover_letter_ok (w : World) (resume : Resume) (jd : String)
    (db : DB) (resume_text : String) (n : Nat)
    (hconv : w.convertResume resume = .ok resume_text)
    (htok : w.numTokensFromString (resume_text ++ jd) = .ok n) :
    ∃ r, (generate_cover_letter w resume jd db).result = .ok r := by
  unfold generate_cover_letter
  rw [hconv]
  dsimp only
  rw [htok]
  dsimp only
  by_cases hex : exceeds_max_input_tokens n = true
  · exact ⟨Option.none, by simp [hex]⟩
  · simp only [Bool.not_eq_true] at hex
    simp only [hex, Bool.false_eq_true, if_false]
    rcases hcall : w.createChatCompletion (build_messages resume_text jd)
        GPT_MODEL_IN_USE MAX_TOKENS_CHAT_COMPLETION with e | success
    · exact ⟨Option.none, rfl⟩
    · dsimp only
      rcases hch : success.response.choices with _ | ⟨choice, rest⟩
      · exact ⟨Option.none, by simp [hch]⟩
      · rcases hcr : w.coverLetterCreate with e | u
        · exact ⟨Option.none, by simp [hch, hcr]⟩
        · exact ⟨some (new_cover_letter w resume jd choice.message.content
            success.inputLog.name), by simp [hch, hcr]⟩

/-- The email sender raises exactly when the first-name extraction (the
only collaborator call outside its try block) raises. -/
theorem send_cover_letter_by_email_error_iff (w : World) (customer : Customer)
    (cover_letter : CoverLetter) (resume : Resume) (db : DB) (e : PyExn) :
    (send_cover_letter_by_email w customer cover_letter resume db).result = .error e ↔
      w.getContactInfoFirstName resume = .error e := by
  unfold send_cover_letter_by_email
  rcases hf : w.getContactInfoFirstName resume with e2 | fn
  · simp
  · dsimp only
    rcases hp : w.sendgridPost (email_request w customer cover_letter fn) with e2 | resp
    · simp
    · by_cases h : resp.status_code > 299 <;> simp [h]

/-- The feedback relay's only fallible step sits inside its try block: it
always returns None. -/
theorem send_user_feedback_to_fixpoint_ok (w : World) (cover_letter : CoverLetter) :
    (send_user_feedback_to_fixpoint w cover_letter).result = .ok () := by
  unfold send_user_feedback_to_fixpoint
  dsimp only
  rcases w.recordSingleUserFeedback (feedback_like_message cover_letter) with e | u <;> rfl

/-- When the generator's pre-try collaborators and the orchestrator's own
collaborator calls (counter save, variant listing, event creation,
first-name extraction) return normally, the background task returns a
payload. -/
theorem generate_cover_letter_in_background_task_ok (w : World) (resume : Resume)
    (jd : String) (customer : Customer) (cookies : RequestCookies) (db : DB)
    (resume_text fn : String) (n : Nat) (variants : List String)
    (hconv : w.convertResume resume = .ok resume_text)
    (htok : w.numTokensFromString (resume_text ++ jd) = .ok n)
    (hname : w.getContactInfoFirstName resume = .ok fn)
    (hsave : w.customerSave = .ok ())
    (hvars : w.listAllExpVariantStrings cookies = .ok variants)
    (hevent : w.recordConversionEvent = .ok ()) :
    ∃ p, (generate_cover_letter_in_background_task w resume jd customer cookies db).result = .ok p := by
  obtain ⟨r, hr⟩ := generate_cover_letter_ok w resume jd db resume_text n hconv htok
  unfold generate_cover_letter_in_background_task
  dsimp only
  rw [hr]
  cases r with
  | none => exact ⟨_, rfl⟩
  | some cover_letter =>
    dsimp only
    rw [hsave]
    dsimp only
    rw [hvars]
    dsimp only
    rw [hevent]
    dsimp only
    split
    · next e heq =>
      rw [send_cover_letter_by_email_error_iff, hname] at heq
      exact absurd heq (by simp)
    · exact ⟨_, rfl⟩

/-- Claim C4 counterexample: when the resume serializer (a collaborator
called outside any try block) raises, the exception escapes
generate_cover_letter — refuting "no exception escapes any of the four
public entry points for every behaviour of the collaborators". -/
theorem C4_resume_serializer_exception_escapes :
    (generate_cover_letter { baseWorld with convertResume := fun _ => .error "boom" }
      sampleResume "jd" db0).result = .error "boom" :=
  rfl

/-- Claim C4 (amended): exceptions are swallowed only by the three try
blocks (the generator's completion-and-persistence block, the email
sender's post block, the feedback relay's submission block).  Provided the
collaborator calls made outside any try block return normally — resume
serialization and token counting in the generator; first-name extraction
in the email sender; counter save, variant listing and event creation in
the background task — no exception escapes any of the four public entry
points; the feedback relay never raises regardless. -/
theorem C4_no_escape_outside_try (w : World) (resume : Resume) (jd : String)
    (customer : Customer) (cookies : RequestCookies) (cover_letter : CoverLetter)
    (db : DB) (resume_text fn : String) (n : Nat) (variants : List String)
    (hconv : w.convertResume resume = .ok resume_text)
    (htok : w.numTokensFromString (resume_text ++ jd) = .ok n)
    (hname : w.getContactInfoFirstName resume = .ok fn)
    (hsave : w.customerSave = .ok ())
    (hvars : w.listAllExpVariantStrings cookies = .ok variants)
    (hevent : w.recordConversionEvent = .ok ()) :
    (∃ r, (generate_cover_letter w resume jd db).result = .ok r) ∧
    (∃ b, (send_cover_letter_by_email w customer cover_letter resume db).result = .ok b) ∧
    (∃ p, (generate_cover_letter_in_background_task w resume jd customer cookies db).result = .ok p) ∧
    (send_user_feedback_to_fixpoint w cover_letter).result = .ok () :=
  ⟨generate_cover_letter_ok w resume jd db resume_text n hconv htok,
   send_cover_letter_by_email_ok w customer cover_letter resume db fn hname,
   generate_cover_letter_in_background_task_ok w resume jd customer cookies db
     resume_text fn n variants hconv htok hname hsave hvars hevent,
   send_user_feedback_to_fixpoint_ok w cover_letter⟩

/-- Witness for C4 (amended): in a concrete world where every collaborator
returns normally, all four entry points return values. -/
theorem C4_no_escape_outside_try_witness :
    (∃ r, (generate_cover_letter baseWorld sampleResume "jd" db0).result = .ok r) ∧
    (∃ b, (send_cover_letter_by_email baseWorld sampleCustomer sampleCoverLetter
      sampleResume db0).result = .ok b) ∧
    (∃ p, (generate_cover_letter_in_background_task baseWorld sampleResume "jd"
      sampleCustomer [] db0).result = .ok p) ∧
    (send_user_feedback_to_fixpoint baseWorld sampleCoverLetter).result = .ok () :=
  C4_no_escape_outside_try baseWorld sampleResume "jd" sampleCustomer []
    sampleCoverLetter db0 "resume text" "Ada" 100 ["_exp_2"] rfl rfl rfl rfl rfl rfl

/-- Claim C5 counterexample: a delivery response with status code 100 —
outside the 2xx range — still makes send_cover_letter_by_email return True
with no monitoring alert, because the code only rejects status codes
above 299. -/
theorem C5_status_100_returns_true :
    (send_cover_letter_by_email { baseWorld with sendgridPost := fun _ => .ok ⟨100⟩ }
      sampleCustomer sampleCoverLetter sampleResume db0).result = .ok true ∧
    (send_cover_letter_by_email { baseWorld with sendgridPost := fun _ => .ok ⟨100⟩ }
      sampleCustomer sampleCoverLetter sampleResume db0).eff.notifies = [] :=
  ⟨rfl, rfl⟩

/-- Claim C5 (amended): when the first-name extraction returns normally,
send_cover_letter_by_email returns True iff the delivery response's status
code is at most 299 (not only the 2xx range); it returns False iff the
status code exceeds 299 or the transport raised; every False return is
accompanied by exactly one monitoring alert and every True return by
none. -/
theorem C5_email_result_semantics (w : World) (customer : Customer)
    (cover_letter : CoverLetter) (resume : Resume) (db : DB) (fn : String)
    (hname : w.getContactInfoFirstName resume = .ok fn) :
    ((send_cover_letter_by_email w customer cover_letter resume db).result = .ok true ↔
      ∃ resp, w.sendgridPost (email_request w customer cover_letter fn) = .ok resp ∧
        resp.status_code ≤ 299) ∧
    ((send_cover_letter_by_email w customer cover_letter resume db).result = .ok false ↔
      ((∃ resp, w.sendgridPost (email_request w customer cover_letter fn) = .ok resp ∧
          299 < resp.status_code) ∨
        ∃ e, w.sendgridPost (email_request w customer cover_letter fn) = .error e)) ∧
    ((send_cover_letter_by_email w customer cover_letter resume db).result = .ok false →
      (send_cover_letter_by_email w customer cover_letter resume db).eff.notifies =
        [COVER_LETTER_UNABLE_TO_SEND_EMAIL]) ∧
    ((send_cover_letter_by_email w customer cover_letter resume db).result = .ok true →
      (send_cover_letter_by_email w customer cover_letter resume db).eff.notifies = []) := by
  unfold send_cover_letter_by_email
  rw [hname]
  dsimp only
  rcases hp : w.sendgridPost (email_request w customer cover_letter fn) with e | resp
  · simp [hp]
  · by_cases h : resp.status_code > 299
    · simp [hp, h]
    · simp [hp, h]
      omega

/-- Witness for C5 (amended): the semantics hold on a concrete world whose
delivery response has status 202. -/
theorem C5_email_result_semantics_witness :
    ((send_cover_letter_by_email baseWorld sampleCustomer sampleCoverLetter
        sampleResume db0).result = .ok true ↔
      ∃ resp, baseWorld.sendgridPost
          (email_request baseWorld sampleCustomer sampleCoverLetter "Ada") = .ok resp ∧
        resp.status_code ≤ 299) ∧
    ((send_cover_letter_by_email baseWorld sampleCustomer sampleCoverLetter
        sampleResume db0).result = .ok false ↔
      ((∃ resp, baseWorld.sendgridPost
            (email_request baseWorld sampleCustomer sampleCoverLetter "Ada") = .ok resp ∧
          299 < resp.status_code) ∨
        ∃ e, baseWorld.sendgridPost
          (email_request baseWorld sampleCustomer sampleCoverLetter "Ada") = .error e)) ∧
    ((send_cover_letter_by_email baseWorld sampleCustomer sampleCoverLetter
        sampleResume db0).result = .ok false →
      (send_cover_letter_by_email baseWorld sampleCustomer sampleCoverLetter
        sampleResume db0).eff.notifies = [COVER_LETTER_UNABLE_TO_SEND_EMAIL]) ∧
    ((send_cover_letter_by_email baseWorld sampleCustomer sampleCoverLetter
        sampleResume db0).result = .ok true →
      (send_cover_letter_by_email baseWorld sampleCustomer sampleCoverLetter
        sampleResume db0).eff.notifies = []) :=
  C5_email_result_semantics baseWorld sampleCustomer sampleCoverLetter sampleResume
    db0 "Ada" rfl

/-- Full outcome of a completely successful generator run. -/
theorem generate_cover_letter_success_eq (w : World) (resume : Resume) (jd : String)
    (db : DB) (resume_text : String) (n : Nat)
    (success : ChatCompletionSuccess) (choice : ChatChoice) (rest : List ChatChoice)
    (hconv : w.convertResume resume = .ok resume_text)
    (htok : w.numTokensFromString (resume_text ++ jd) = .ok n)
    (hex : exceeds_max_input_tokens n = false)
    (hcall : w.createChatCompletion (build_messages resume_text jd)
      GPT_MODEL_IN_USE MAX_TOKENS_CHAT_COMPLETION = .ok success)
    (hchoices : success.response.choices = choice :: rest)
    (hcreate : w.coverLetterCreate = .ok ()) :
    generate_cover_letter w resume jd db =
      ⟨.ok (some (new_cover_letter w resume jd choice.message.content success.inputLog.name)),
       { db with coverLetters := db.coverLetters ++
          [new_cover_letter w resume jd choice.message.content success.inputLog.name] },
       ⟨1, [], [], []⟩⟩ := by
  simp [generate_cover_letter, hconv, htok, hex, hcall, hchoices, hcreate]

/-- Claim C6: on a successful generator result (all success-path
collaborator calls returning normally), the background task persists the
customer with the counter incremented by exactly one, appends exactly one
ConversionEvent carrying the generation event name, the given resume and
the variant labels listed from the request cookies, and returns the
created record's serialized fields id (stringified), job description
text, generated text, rating and created timestamp. -/
theorem C6_background_success_path (w : World) (resume : Resume) (jd : String)
    (customer : Customer) (cookies : RequestCookies) (db : DB)
    (resume_text fn : String) (n : Nat) (variants : List String)
    (success : ChatCompletionSuccess) (choice : ChatChoice) (rest : List ChatChoice)
    (hconv : w.convertResume resume = .ok resume_text)
    (htok : w.numTokensFromString (resume_text ++ jd) = .ok n)
    (hex : exceeds_max_input_tokens n = false)
    (hcall : w.createChatCompletion (build_messages resume_text jd)
      GPT_MODEL_IN_USE MAX_TOKENS_CHAT_COMPLETION = .ok success)
    (hchoices : success.response.choices = choice :: rest)
    (hcreate : w.coverLetterCreate = .ok ())
    (hsave : w.customerSave = .ok ())
    (hvars : w.listAllExpVariantStrings cookies = .ok variants)
    (hevent : w.recordConversionEvent = .ok ())
    (hname : w.getContactInfoFirstName resume = .ok fn) :
    ∃ record,
      (generate_cover_letter w resume jd db).result = .ok (some record) ∧
      (generate_cover_letter_in_background_task w resume jd customer cookies db).result =
        .ok (TaskPayload.data ⟨toString record.id, record.job_description_text,
          record.generated_text, record.rating, record.created_at⟩) ∧
      (generate_cover_letter_in_background_task w resume jd customer cookies db).db.savedCustomers =
        db.savedCustomers ++ [{ customer with num_cover_letters_generated :=
          customer.num_cover_letters_generated + 1 }] ∧
      (generate_cover_letter_in_background_task w resume jd customer cookies db).db.conversionEvents =
        db.conversionEvents ++ [⟨COVER_LETTER_GENERATE_EVENT_NAME, resume, variants⟩] ∧
      (generate_cover_letter_in_background_task w resume jd customer cookies db).db.coverLetters =
        db.coverLetters ++ [record] := by
  have hgen := generate_cover_letter_success_eq w resume jd db resume_text n success
    choice rest hconv htok hex hcall hchoices hcreate
  refine ⟨new_cover_letter w resume jd choice.message.content success.inputLog.name,
    by rw [hgen], ?_, ?_, ?_, ?_⟩ <;>
  · unfold generate_cover_letter_in_background_task
    dsimp only
    rw [hgen]
    dsimp only
    rw [hsave]
    dsimp only
    rw [hvars]
    dsimp only
    rw [hevent]
    dsimp only
    split
    · next e heq =>
      rw [send_cover_letter_by_email_error_iff, hname] at heq
      exact absurd heq (by simp)
    · simp [send_cover_letter_by_email_db, serialize_cover_letter]

/-- Witness for C6: the success path on a concrete world: the counter goes
from 2 to 3, one event with label _exp_2 is appended, and the serialized
record is returned. -/
theorem C6_background_success_path_witness :
    ∃ record,
      (generate_cover_letter baseWorld sampleResume "jd" db0).result = .ok (some record) ∧
      (generate_cover_letter_in_background_task baseWorld sampleResume "jd"
          sampleCustomer [] db0).result =
        .ok (TaskPayload.data ⟨toString record.id, record.job_description_text,
          record.generated_text, record.rating, record.created_at⟩) ∧
      (generate_cover_letter_in_background_task baseWorld sampleResume "jd"
          sampleCustomer [] db0).db.savedCustomers =
        db0.savedCustomers ++ [{ sampleCustomer with num_cover_letters_generated :=
          sampleCustomer.num_cover_letters_generated + 1 }] ∧
      (generate_cover_letter_in_background_task baseWorld sampleResume "jd"
          sampleCustomer [] db0).db.conversionEvents =
        db0.conversionEvents ++ [⟨COVER_LETTER_GENERATE_EVENT_NAME, sampleResume, ["_exp_2"]⟩] ∧
      (generate_cover_letter_in_background_task baseWorld sampleResume "jd"
          sampleCustomer [] db0).db.coverLetters = db0.coverLetters ++ [record] :=
  C6_background_success_path baseWorld sampleResume "jd" sampleCustomer [] db0
    "resume text" "Ada" 100 ["_exp_2"]
    ⟨⟨[⟨⟨"Dear Hiring Manager,\nI fit."⟩⟩]⟩, ⟨"log-in"⟩, ⟨"log-out"⟩⟩
    ⟨⟨"Dear Hiring Manager,\nI fit."⟩⟩ []
    rfl rfl rfl rfl rfl rfl rfl rfl rfl rfl

/-- Claim C7: when the generator returns the failure sentinel, the
background task reports exactly one monitoring error, returns the
structured error payload with the generation-failure message, leaves the
persisted customers and conversion events unchanged, and attempts no email
send. -/
theorem C7_background_failure_path (w : World) (resume : Resume) (jd : String)
    (customer : Customer) (cookies : RequestCookies) (db : DB)
    (hgen : (generate_cover_letter w resume jd db).result = .ok Option.none) :
    (generate_cover_letter_in_background_task w resume jd customer cookies db).result =
      .ok (TaskPayload.errorPayload COVER_LETTER_UNABLE_TO_GENERATE) ∧
    (generate_cover_letter_in_background_task w resume jd customer cookies db).eff.notifies =
      [COVER_LETTER_UNABLE_TO_GENERATE] ∧
    (generate_cover_letter_in_background_task w resume jd customer cookies db).db.savedCustomers =
      db.savedCustomers ∧
    (generate_cover_letter_in_background_task w resume jd customer cookies db).db.conversionEvents =
      db.conversionEvents ∧
    (generate_cover_letter_in_background_task w resume jd customer cookies db).eff.emailPosts = [] := by
  obtain ⟨hev, hsc, hnot, hpost⟩ := generate_cover_letter_frame w resume jd db
  unfold generate_cover_letter_in_background_task
  dsimp only
  rw [hgen]
  dsimp only
  exact ⟨rfl, by simp [Effects.merge, hnot], hsc, hev, by simp [Effects.merge, hpost]⟩

/-- Witness for C7: a concrete run whose token count exceeds the budget
reports one error, returns the error payload, and performs no side
effects. -/
theorem C7_background_failure_path_witness :
    (generate_cover_letter_in_background_task
        { baseWorld with numTokensFromString := fun _ => .ok 100000 }
        sampleResume "jd" sampleCustomer [] db0).result =
      .ok (TaskPayload.errorPayload COVER_LETTER_UNABLE_TO_GENERATE) ∧
    (generate_cover_letter_in_background_task
        { baseWorld with numTokensFromString := fun _ => .ok 100000 }
        sampleResume "jd" sampleCustomer [] db0).eff.notifies =
      [COVER_LETTER_UNABLE_TO_GENERATE] ∧
    (generate_cover_letter_in_background_task
        { baseWorld with numTokensFromString := fun _ => .ok 100000 }
        sampleResume "jd" sampleCustomer [] db0).db.savedCustomers = db0.savedCustomers ∧
    (generate_cover_letter_in_background_task
        { baseWorld with numTokensFromString := fun _ => .ok 100000 }
        sampleResume "jd" sampleCustomer [] db0).db.conversionEvents = db0.conversionEvents ∧
    (generate_cover_letter_in_background_task
        { baseWorld with numTokensFromString := fun _ => .ok 100000 }
        sampleResume "jd" sampleCustomer [] db0).eff.emailPosts = [] :=
  C7_background_failure_path { baseWorld with numTokensFromString := fun _ => .ok 100000 }
    sampleResume "jd" sampleCustomer [] db0 rfl

/-- Full outcome of the email sender when the first-name extraction
raises. -/
theorem send_cover_letter_by_email_eq_of_contact_error (w : World)
    (customer : Customer) (cover_letter : CoverLetter) (resume : Resume)
    (db : DB) (e : PyExn)
    (hf : w.getContactInfoFirstName resume = .error e) :
    send_cover_letter_by_email w customer cover_letter resume db =
      ⟨.error e, db, Effects.none⟩ := by
  unfold send_cover_letter_by_email
  rw [hf]

/-- An ok boolean result of the email sender implies the first-name
extraction returned normally. -/
theorem send_cover_letter_by_email_result_ok_contact (w : World)
    (customer : Customer) (cover_letter : CoverLetter) (resume : Resume)
    (db : DB) (b : Bool)
    (hok : (send_cover_letter_by_email w customer cover_letter resume db).result = .ok b) :
    ∃ fn, w.getContactInfoFirstName resume = .ok fn := by
  rcases hf : w.getContactInfoFirstName resume with e | fn
  · rw [send_cover_letter_by_email_eq_of_contact_error w customer cover_letter
      resume db e hf] at hok
    exact absurd hok (by simp)
  · exact ⟨fn, rfl⟩

/-- Claim C8: for a successful generator result, the outcome of the email
notification step does not affect the background task's returned payload
or any datastore state (cover letters, persisted counter, conversion
events): replacing the email-delivery behaviour by any other behaviour
(arbitrary status, or a raised transport exception — both caught inside
the email sender) leaves the returned payload and the datastore
identical; counter and event are never rolled back. -/
theorem C8_email_outcome_frame (w : World)
    (p : EmailRequest → PyResult SendgridResponse) (resume : Resume) (jd : String)
    (customer : Customer) (cookies : RequestCookies) (db : DB) (cl : CoverLetter)
    (hgen : (generate_cover_letter w resume jd db).result = .ok (some cl)) :
    (generate_cover_letter_in_background_task { w with sendgridPost := p }
        resume jd customer cookies db).result =
      (generate_cover_letter_in_background_task w resume jd customer cookies db).result ∧
    (generate_cover_letter_in_background_task { w with sendgridPost := p }
        resume jd customer cookies db).db =
      (generate_cover_letter_in_background_task w resume jd customer cookies db).db := by
  have hgw : generate_cover_letter { w with sendgridPost := p } resume jd db =
      generate_cover_letter w resume jd db := rfl
  unfold generate_cover_letter_in_background_task
  dsimp only
  rw [hgw, hgen]
  dsimp only
  rcases hsv : w.customerSave with e | u
  · exact ⟨rfl, rfl⟩
  · dsimp only
    rcases hvv : w.listAllExpVariantStrings cookies with e | variants
    · exact ⟨rfl, rfl⟩
    · dsimp only
      rcases hce : w.recordConversionEvent with e | u2
      · exact ⟨rfl, rfl⟩
      · dsimp only
        split
        · next e1 heqL =>
          rw [send_cover_letter_by_email_error_iff] at heqL
          dsimp only at heqL
          split
          · next e2 heqR =>
            rw [send_cover_letter_by_email_error_iff] at heqR
            rw [heqL] at heqR
            injection heqR with h12
            subst h12
            exact ⟨rfl, by rw [send_cover_letter_by_email_db,
              send_cover_letter_by_email_db]⟩
          · next val heqR =>
            obtain ⟨fn, hfn⟩ := send_cover_letter_by_email_result_ok_contact
              _ _ _ _ _ _ heqR
            rw [heqL] at hfn
            exact absurd hfn (by simp)
        · next val heqL =>
          obtain ⟨fn, hfn⟩ := send_cover_letter_by_email_result_ok_contact
            _ _ _ _ _ _ heqL
          dsimp only at hfn
          split
          · next e2 heqR =>
            rw [send_cover_letter_by_email_error_iff] at heqR
            rw [hfn] at heqR
            exact absurd heqR (by simp)
          · next val2 heqR =>
            exact ⟨rfl, by rw [send_cover_letter_by_email_db,
              send_cover_letter_by_email_db]⟩

/-- Witness for C8: with the generator succeeding concretely, swapping the
202-status delivery behaviour for a raising one changes neither the
payload nor the datastore. -/
theorem C8_email_outcome_frame_witness :
    (generate_cover_letter_in_background_task
        { baseWorld with sendgridPost := fun _ => .error "connection reset" }
        sampleResume "jd" sampleCustomer [] db0).result =
      (generate_cover_letter_in_background_task baseWorld sampleResume "jd"
        sampleCustomer [] db0).result ∧
    (generate_cover_letter_in_background_task
        { baseWorld with sendgridPost := fun _ => .error "connection reset" }
        sampleResume "jd" sampleCustomer [] db0).db =
      (generate_cover_letter_in_background_task baseWorld sampleResume "jd"
        sampleCustomer [] db0).db :=
  C8_email_outcome_frame baseWorld (fun _ => .error "connection reset") sampleResume
    "jd" sampleCustomer [] db0
    (new_cover_letter baseWorld sampleResume "jd" "Dear Hiring Manager,\nI fit." "log-in")
    rfl

/-- Claim C9: the feedback relay submits exactly one like message whose
reaction is THUMBS_DOWN iff the stored rating is the thumbs-down choice
(THUMBS_UP for every other rating, including unset), whose log name is the
record's stringified log reference and whose user id is the stringified
customer user id; it always returns None, and a submission failure
produces exactly one monitoring alert while a success produces none. -/
theorem C9_feedback_relay (w : World) (cover_letter : CoverLetter) :
    (send_user_feedback_to_fixpoint w cover_letter).eff.feedbackCalls =
      [feedback_like_message cover_letter] ∧
    ((feedback_like_message cover_letter).thumbs_reaction = ThumbsReaction.THUMBS_DOWN ↔
      cover_letter.rating = some CoverLetterFeedbackChoicesEnum.THUMBS_DOWN) ∧
    (feedback_like_message cover_letter).log_name =
      cover_letter.fixpoint_input_log_response_name ∧
    (feedback_like_message cover_letter).user_id =
      toString cover_letter.customer.user.id ∧
    (send_user_feedback_to_fixpoint w cover_letter).result = .ok () ∧
    (send_user_feedback_to_fixpoint w cover_letter).eff.notifies =
      (match w.recordSingleUserFeedback (feedback_like_message cover_letter) with
       | .ok _ => []
       | .error _ => [COVER_LETTER_UNABLE_TO_SEND_FEEDBACK_TO_FIXPOINT]) := by
  refine ⟨?_, ?_, rfl, rfl, send_user_feedback_to_fixpoint_ok w cover_letter, ?_⟩
  · unfold send_user_feedback_to_fixpoint
    dsimp only
    rcases w.recordSingleUserFeedback (feedback_like_message cover_letter) with e | u <;> rfl
  · by_cases h : cover_letter.rating = some CoverLetterFeedbackChoicesEnum.THUMBS_DOWN <;>
      simp [feedback_like_message, create_user_feedback_like_message,
        feedback_thumbs_reaction, h]
  · rcases hr : w.recordSingleUserFeedback (feedback_like_message cover_letter) with e | u <;>
      simp [send_user_feedback_to_fixpoint, hr]

/-- Claim C10: when the first-name extraction returns normally, exactly
one email request is submitted, its generatedCoverLetter field is the
record's generated text with every newline character replaced by the
exact string "<br />", and the datastore — in particular the stored
record's generated_text — is unchanged by the call (the substitution is
applied to a local value; the embedding's record, customer and resume
values are immutable inputs). -/
theorem C10_newline_substitution (w : World) (customer : Customer)
    (cover_letter : CoverLetter) (resume : Resume) (db : DB) (fn : String)
    (hname : w.getContactInfoFirstName resume = .ok fn) :
    (send_cover_letter_by_email w customer cover_letter resume db).eff.emailPosts =
      [email_request w customer cover_letter fn] ∧
    (email_request w customer cover_letter fn).personalizations.map
        (fun pz => pz.dynamic_template_data.generatedCoverLetter) =
      [replace_newlines cover_letter.generated_text] ∧
    (send_cover_letter_by_email w customer cover_letter resume db).db = db := by
  refine ⟨?_, rfl, send_cover_letter_by_email_db w customer cover_letter resume db⟩
  unfold send_cover_letter_by_email
  rw [hname]
  dsimp only
  rcases hp : w.sendgridPost (email_request w customer cover_letter fn) with e | resp
  · rfl
  · by_cases h : resp.status_code > 299 <;> simp [h]

/-- Witness for C10: on a concrete record whose text contains a newline,
the submitted request carries the text with the newline replaced by
"<br />", and the concrete substitution evaluates as expected. -/
theorem C10_newline_substitution_witness :
    ((send_cover_letter_by_email baseWorld sampleCustomer sampleCoverLetter
        sampleResume db0).eff.emailPosts =
      [email_request baseWorld sampleCustomer sampleCoverLetter "Ada"] ∧
    (email_request baseWorld sampleCustomer sampleCoverLetter "Ada").personalizations.map
        (fun pz => pz.dynamic_template_data.generatedCoverLetter) =
      [replace_newlines sampleCoverLetter.generated_text] ∧
    (send_cover_letter_by_email baseWorld sampleCustomer sampleCoverLetter
        sampleResume db0).db = db0) ∧
    replace_newlines "Dear Hiring Manager,\nI fit." = "Dear Hiring Manager,<br />I fit." :=
  ⟨C10_newline_substitution baseWorld sampleCustomer sampleCoverLetter sampleResume
    db0 "Ada" rfl, by decide⟩
